import Mathlib

/-!
Verification of the Nautobot jobs repository against its specification.

The Python source is embedded shallowly: each relevant routine becomes an
executable Lean definition, with remote I/O (netmiko sessions) replaced by an
explicit outcome parameter, so that the control flow and the text processing
of the source are modelled exactly.
-/

namespace NautobotJobs

/-! ### String primitives

Embeddings of the Python string operations used by the jobs:
`str.splitlines`, `str.split()`, the `in` containment operator,
`str.lower()` (restricted to ASCII, which covers every token the jobs
compare), and `str.strip()`.
-/

/-- Accumulator loop for `str.splitlines`: lines are cut at `\n`, `\r\n`
or `\r`, and a trailing terminator does not produce a final empty line. -/
def splitlinesAux : List Char → List Char → List (List Char)
  | [], [] => []
  | [], acc => [acc.reverse]
  | '\r' :: '\n' :: rest, acc => acc.reverse :: splitlinesAux rest []
  | '\n' :: rest, acc => acc.reverse :: splitlinesAux rest []
  | '\r' :: rest, acc => acc.reverse :: splitlinesAux rest []
  | c :: rest, acc => splitlinesAux rest (c :: acc)

/-- Python `str.splitlines`. -/
def splitlines (s : String) : List String :=
  (splitlinesAux s.data []).map String.mk

/-- Accumulator loop for `str.split()` with no argument: split on runs of
whitespace, discarding empty pieces. -/
def splitWsAux : List Char → List Char → List (List Char)
  | [], [] => []
  | [], acc => [acc.reverse]
  | c :: rest, acc =>
    if c.isWhitespace then
      match acc with
      | [] => splitWsAux rest []
      | _ => acc.reverse :: splitWsAux rest []
    else splitWsAux rest (c :: acc)

/-- Python `str.split()` (whitespace split, empty pieces dropped). -/
def pysplit (s : String) : List String :=
  (splitWsAux s.data []).map String.mk

/-- Containment of one character list in another, scanning left to right. -/
def containsSub (pat : List Char) : List Char → Bool
  | [] => pat.isEmpty
  | c :: rest => pat.isPrefixOf (c :: rest) || containsSub pat rest

/-- Python `pat in s` on strings. -/
def substrIn (pat s : String) : Bool :=
  containsSub pat.data s.data

/-- Python `str.lower()` on one character, restricted to ASCII letters
(every state token compared by the jobs is ASCII). -/
def lowerChar : Char → Char
  | 'A' => 'a' | 'B' => 'b' | 'C' => 'c' | 'D' => 'd' | 'E' => 'e'
  | 'F' => 'f' | 'G' => 'g' | 'H' => 'h' | 'I' => 'i' | 'J' => 'j'
  | 'K' => 'k' | 'L' => 'l' | 'M' => 'm' | 'N' => 'n' | 'O' => 'o'
  | 'P' => 'p' | 'Q' => 'q' | 'R' => 'r' | 'S' => 's' | 'T' => 't'
  | 'U' => 'u' | 'V' => 'v' | 'W' => 'w' | 'X' => 'x' | 'Y' => 'y'
  | 'Z' => 'z'
  | c => c

/-- Python `str.lower()` on strings (ASCII letters). -/
def lowerStr (s : String) : String :=
  String.mk (s.data.map lowerChar)

/-- The character-list core of Python `str.strip()`: drop whitespace from
both ends. -/
def stripChars (l : List Char) : List Char :=
  ((l.dropWhile Char.isWhitespace).reverse.dropWhile Char.isWhitespace).reverse

/-- Python `str.strip()`. -/
def pystrip (s : String) : String :=
  String.mk (stripChars s.data)

/-! ### SR-OS status parsing — `jobs/show_port.py`, `GetInterfaceStatus.run`

The parsing loop of the job is

```
for line in output.splitlines():
    if interface_name in line:
        parts = line.split()
        if len(parts) >= 3:
            admin_state = parts[1]
            port_state = parts[2]
        break
```

so the first line containing `interface_name` as a substring decides the
result, and both states stay `None` when that line has fewer than three
whitespace-delimited columns (or when no line matches).
-/

/-- States extracted from one already-located line: `parts[1]` and
`parts[2]` when the line has at least three columns, else `None`. -/
def lineStates (line : String) : Option String × Option String :=
  let parts := pysplit line
  if parts.length ≥ 3 then (parts[1]?, parts[2]?) else (none, none)

/-- The `for line in output.splitlines()` loop over an already-split list of
lines: the first line containing the interface name (Python `in`) is used
and the loop breaks there. -/
def parseLines (lines : List String) (interface_name : String) :
    Option String × Option String :=
  match lines.find? (fun line => substrIn interface_name line) with
  | some line => lineStates line
  | none => (none, none)

/-- The whole parsing phase of `GetInterfaceStatus.run`: `(admin_state,
port_state)` computed from the raw command output. -/
def parseShowPort (output interface_name : String) :
    Option String × Option String :=
  parseLines (splitlines output) interface_name

/-! ### The surrounding job — `GetInterfaceStatus.run`

The job handles a single device per invocation.  Remote I/O is replaced by
a `ConnOutcome` parameter giving the outcome of the netmiko
`ConnectHandler`/`send_command` block; the `raise Exception(...)` exits of
the Python method are modelled as `Except.error` with the exact message
raised.  On success the method only logs, so the embedding returns the
parsed `(admin_state, port_state)` pair as the observable result.
`get_context()` failures other than a missing key are not modelled
separately (both re-raise fixed messages in the source); a missing
`username`/`password` key is the modelled `KeyError` branch.
-/

/-- The username/password context returned by
`device.secrets_group.get_context()`. -/
structure SecretsCtx where
  username : Option String
  password : Option String

/-- The attributes of a Nautobot device read by `GetInterfaceStatus.run`. -/
structure ShowPortDevice where
  name : String
  primary_ip4 : Option String
  secrets_group : Option SecretsCtx

/-- Outcome of the netmiko connect-and-send block, abstracting the remote
transport. -/
inductive ConnOutcome
  | ok (output : String)
  | timeout
  | authFail
  | otherErr (msg : String)

/-- `GetInterfaceStatus.run` for one device: validation, credential
resolution, the connection block, then the parsing loop. -/
def runGetInterfaceStatus (device : ShowPortDevice) (conn : ConnOutcome)
    (interface_name : String) : Except String (Option String × Option String) :=
  match device.primary_ip4 with
  | none => Except.error "Device has no primary IPv4 address."
  | some _ =>
    match device.secrets_group with
    | none => Except.error "Device has no Secrets Group assigned."
    | some ctx =>
      match ctx.username, ctx.password with
      | some _, some _ =>
        match conn with
        | ConnOutcome.ok output => Except.ok (parseShowPort output interface_name)
        | ConnOutcome.timeout => Except.error "Connection timed out."
        | ConnOutcome.authFail => Except.error "Authentication failed."
        | ConnOutcome.otherErr _ =>
            Except.error "Unexpected error during connection or command."
      | _, _ => Except.error "Secrets missing required keys."

/-! ### The spec's matching rule, for comparison

The specification (§4.4) states a different line-location rule than the
source: the status line is the one whose FIRST whitespace-delimited token
equals (or, for the prefix dialect, is prefixed by) the requested
interface name, and three positional states are extracted from it.  The
two definitions below follow the spec's words so the source's parser can
be compared against them.
-/

/-- Modelled from the spec (§4.4): locate the line whose first
whitespace-delimited token equals, or is prefixed by, the interface name. -/
def specFindStatusLine (output interface_name : String) : Option String :=
  (splitlines output).find? (fun line =>
    match pysplit line with
    | [] => false
    | tok :: _ => tok == interface_name || interface_name.isPrefixOf tok)

/-- Modelled from the spec (§4.4 and the terse scenario): from the located
line, read administrative, link and protocol states from columns 1, 2, 3. -/
def specParseStatus (output interface_name : String) :
    Option (String × String × String) :=
  match specFindStatusLine output interface_name with
  | none => none
  | some line =>
    match pysplit line with
    | _ :: a :: l :: p :: _ => some (a, l, p)
    | _ => none

/-! ### Junos status report — `jobs/junos_1.py`,
`JunosInterfaceStatusJob._format_output`

Only the SUMMARY block depends on the device output; it is computed from
`lo = main_output.lower()` where `main_output` is the stripped main
command output.
-/

/-- The `lo` variable of `_format_output`: the stripped, lower-cased main
command output. -/
def junosLo (main_output : String) : String :=
  lowerStr (pystrip main_output)

/-- Python `f"{label:<25}"`: left-align the label in a field of width 25. -/
def leftAlign25 (s : String) : String :=
  s ++ String.mk (List.replicate (25 - s.data.length) ' ')

/-- The nested `status_line` helper of `_format_output`. -/
def junosStatusLine (label up_cond down_cond lo : String) : String :=
  if substrIn up_cond lo then "✓ " ++ leftAlign25 label ++ " UP"
  else if substrIn down_cond lo then "✗ " ++ leftAlign25 label ++ " DOWN"
  else "? " ++ leftAlign25 label ++ " Unknown"

/-- The `Physical Link` summary line. -/
def junosPhysicalLine (main_output : String) : String :=
  junosStatusLine "Physical Link" "physical link is up" "physical link is down"
    (junosLo main_output)

/-- The `Protocol Status` summary line. -/
def junosProtocolLine (main_output : String) : String :=
  junosStatusLine "Protocol Status" "protocol is up" "protocol is down"
    (junosLo main_output)

/-- The administrative-status summary line: an if/else with no third
branch. -/
def junosAdminLine (main_output : String) : String :=
  if substrIn "admin down" (junosLo main_output)
      || substrIn "administratively down" (junosLo main_output) then
    "! Administrative Status     DOWN (disabled)"
  else
    "✓ Administrative Status     UP (enabled)"

/-- The three status lines of the SUMMARY block, in source order. -/
def junosSummaryLines (main_output : String) : List String :=
  [junosPhysicalLine main_output, junosProtocolLine main_output,
   junosAdminLine main_output]

/-! ### Compliance jobs — `jobs/data_quality.py`

`VerifyManagementIP.run` and `VerifyPrimaryIP.run` loop over the filtered
devices, log exactly one pass/fail line per evaluated device and collect
failing device names; `VerifyPrimaryIP` additionally skips devices that
are in a virtual chassis without being its master.  The per-device log
entry is modelled as a `(name, Verdict)` finding.
-/

/-- A pass/fail finding for one device. -/
inductive Verdict
  | Pass
  | Fail
deriving DecidableEq

/-- Virtual-chassis membership data read by `VerifyPrimaryIP.run`. -/
structure VirtualChassisRec where
  master_id : Option Nat
deriving DecidableEq

/-- The device attributes read by the two compliance jobs. -/
structure DeviceRec where
  id : Nat
  name : String
  primary_ip : Option String
  virtual_chassis : Option VirtualChassisRec

/-- The `if device.primary_ip:` test of `VerifyManagementIP.run`. -/
def mgmtIPCheck (d : DeviceRec) : Verdict :=
  match d.primary_ip with
  | some _ => Verdict.Pass
  | none => Verdict.Fail

/-- The device loop of `VerifyManagementIP.run`: one finding per device in
iteration order, and the `missing_mgmt_ip` list of failing names. -/
def verifyManagementIP : List DeviceRec → List (String × Verdict) × List String
  | [] => ([], [])
  | d :: rest =>
    let acc := verifyManagementIP rest
    match d.primary_ip with
    | some _ => ((d.name, Verdict.Pass) :: acc.1, acc.2)
    | none => ((d.name, Verdict.Fail) :: acc.1, d.name :: acc.2)

/-- The `if device.primary_ip:` test of `VerifyPrimaryIP.run` (duplicated
in the source). -/
def primaryIPCheck (d : DeviceRec) : Verdict :=
  match d.primary_ip with
  | some _ => Verdict.Pass
  | none => Verdict.Fail

/-- The skip condition of `VerifyPrimaryIP.run`:
`device.virtual_chassis and device.virtual_chassis.master_id != device.id`. -/
def vcNonMasterMember (d : DeviceRec) : Bool :=
  match d.virtual_chassis with
  | none => false
  | some vc => vc.master_id != some d.id

/-- The device loop of `VerifyPrimaryIP.run`: skipped devices produce no
finding at all. -/
def verifyPrimaryIP : List DeviceRec → List (String × Verdict) × List String
  | [] => ([], [])
  | d :: rest =>
    if vcNonMasterMember d then verifyPrimaryIP rest
    else
      let acc := verifyPrimaryIP rest
      match d.primary_ip with
      | some _ => ((d.name, Verdict.Pass) :: acc.1, acc.2)
      | none => ((d.name, Verdict.Fail) :: acc.1, d.name :: acc.2)

/-- Findings with a `Pass` verdict. -/
def passCount (findings : List (String × Verdict)) : Nat :=
  (findings.filter (fun f => f.2 = Verdict.Pass)).length

/-- Findings with a `Fail` verdict. -/
def failCount (findings : List (String × Verdict)) : Nat :=
  (findings.filter (fun f => f.2 = Verdict.Fail)).length

/-! ### Interface shutdown — `jobs/shutdown_interface.py`,
`JunosDisableInterface.run`

The run is modelled with an explicit trace of remote-side effects:
invoking `ConnectHandler` emits `connect`, `send_config_set` emits
`sendConfig` with the command list, `disconnect` emits `disconnect`.  The
guard `if interface.device != device` is evaluated before any of them.
`device.primary_ip.address` is modelled as the already-resolved `host`
string.
-/

/-- The device attributes read by `JunosDisableInterface.run`. -/
structure ShutdownDevice where
  id : Nat
  name : String
  host : String

/-- The interface selected in the job form. -/
structure InterfaceRec where
  device_id : Nat
  name : String

/-- A remote-side effect of the run. -/
inductive NetEffect
  | connect
  | sendConfig (cmds : List String)
  | disconnect
deriving DecidableEq

/-- Outcome of `ConnectHandler`. -/
inductive ConnResult
  | ok
  | failed (msg : String)

/-- Outcome of `send_config_set`. -/
inductive CfgResult
  | ok (output : String)
  | failed (msg : String)

/-- The Junos CLI commands built by the run. -/
def junosDisableCommands (ifname : String) : List String :=
  ["configure", "set interfaces " ++ ifname ++ " disable", "commit", "exit"]

/-- `JunosDisableInterface.run`: returns the job's return string together
with the trace of remote effects, in order. -/
def runJunosDisableInterface (device : ShutdownDevice) (iface : InterfaceRec)
    (conn : ConnResult) (cfg : CfgResult) : String × List NetEffect :=
  if iface.device_id ≠ device.id then
    ("Error: Interface " ++ iface.name ++ " does not belong to device "
      ++ device.name, [])
  else
    match conn with
    | ConnResult.failed e => ("Connection error: " ++ e, [NetEffect.connect])
    | ConnResult.ok =>
      match cfg with
      | CfgResult.ok _ =>
        ("Interface " ++ iface.name ++ " has been disabled on "
          ++ device.name ++ ".",
         [NetEffect.connect,
          NetEffect.sendConfig (junosDisableCommands iface.name),
          NetEffect.disconnect])
      | CfgResult.failed e =>
        ("Error during interface shutdown: " ++ e,
         [NetEffect.connect,
          NetEffect.sendConfig (junosDisableCommands iface.name)])

/-! ### Helper lemmas -/

/-- The parsing loop is decided by the first line containing the interface
name: earlier non-matching lines are skipped and later lines are never
read. -/
theorem parseLines_first_match (pre : List String) (l : String)
    (rest : List String) (name : String)
    (hpre : ∀ l' ∈ pre, substrIn name l' = false)
    (hl : substrIn name l = true) :
    parseLines (pre ++ l :: rest) name = lineStates l := by
  unfold parseLines
  have hfind : (pre ++ l :: rest).find? (fun line => substrIn name line) = some l := by
    rw [List.find?_append]
    have h1 : pre.find? (fun line => substrIn name line) = none := by
      rw [List.find?_eq_none]
      intro x hx
      simp [hpre x hx]
    rw [h1, List.find?_cons_of_pos _ hl]
    rfl
  rw [hfind]

/-- ASCII lowering maps no character into or out of the whitespace class. -/
theorem isWhitespace_lowerChar (c : Char) :
    (lowerChar c).isWhitespace = c.isWhitespace := by
  unfold lowerChar
  split <;> rfl

/-- Dropping leading whitespace commutes with ASCII lowering. -/
theorem dropWhile_map_lowerChar (l : List Char) :
    (l.map lowerChar).dropWhile Char.isWhitespace
      = (l.dropWhile Char.isWhitespace).map lowerChar := by
  induction l with
  | nil => rfl
  | cons c l ih =>
    cases h : c.isWhitespace <;>
      simp [List.dropWhile, isWhitespace_lowerChar, h, ih]

/-- Stripping commutes with ASCII lowering. -/
theorem stripChars_map_lowerChar (l : List Char) :
    stripChars (l.map lowerChar) = (stripChars l).map lowerChar := by
  unfold stripChars
  rw [dropWhile_map_lowerChar, ← List.map_reverse, dropWhile_map_lowerChar,
    ← List.map_reverse]

/-- Two outputs with the same lower-casing produce the same `lo` text in
`_format_output`. -/
theorem junosLo_congr (s t : String) (h : lowerStr s = lowerStr t) :
    junosLo s = junosLo t := by
  have hd : s.data.map lowerChar = t.data.map lowerChar :=
    congrArg String.data h
  unfold junosLo lowerStr pystrip
  simp only
  rw [← stripChars_map_lowerChar, hd, stripChars_map_lowerChar]

/-- The management-IP loop yields exactly the per-device findings in
iteration order, and the failing names. -/
theorem verifyManagementIP_eq (devices : List DeviceRec) :
    verifyManagementIP devices
      = (devices.map (fun d => (d.name, mgmtIPCheck d)),
         (devices.filter (fun d => d.primary_ip.isNone)).map (fun d => d.name)) := by
  induction devices with
  | nil => rfl
  | cons d rest ih =>
    cases h : d.primary_ip <;>
      simp [verifyManagementIP, mgmtIPCheck, h, ih, List.filter]

/-- The primary-IP loop yields exactly one finding for each non-skipped
device, in iteration order. -/
theorem verifyPrimaryIP_findings (devices : List DeviceRec) :
    (verifyPrimaryIP devices).1
      = (devices.filter (fun d => !(vcNonMasterMember d))).map
          (fun d => (d.name, primaryIPCheck d)) := by
  induction devices with
  | nil => rfl
  | cons d rest ih =>
    by_cases hvc : vcNonMasterMember d
    · simp [verifyPrimaryIP, hvc, ih, List.filter]
    · cases h : d.primary_ip <;>
        simp [verifyPrimaryIP, primaryIPCheck, hvc, h, ih, List.filter]

/-- Every finding is `Pass` or `Fail`, so the two counts partition the
findings list. -/
theorem passCount_add_failCount (findings : List (String × Verdict)) :
    passCount findings + failCount findings = findings.length := by
  induction findings with
  | nil => rfl
  | cons f rest ih =>
    simp only [passCount, failCount] at ih ⊢
    cases hv : f.2 <;> simp [List.filter, hv] <;> omega

/-! ### Claims -/

/-- Claim C1 is false as stated: the status parser does not locate the line
whose first whitespace-delimited token equals (or is prefixed by) the
requested interface name.  On the response below it takes its states from
the first line that merely contains the name as a substring, yielding
admin `ge-0/0/0` and port `a`, not the states `up`/`down` of the line the
stated rule selects (which carries `up down down`). -/
theorem claim_C1_counterexample :
    parseShowPort "foo ge-0/0/0 a b\nge-0/0/0 up down down" "ge-0/0/0"
        = (some "ge-0/0/0", some "a")
      ∧ parseShowPort "foo ge-0/0/0 a b\nge-0/0/0 up down down" "ge-0/0/0"
          ≠ (some "up", some "down")
      ∧ specParseStatus "foo ge-0/0/0 a b\nge-0/0/0 up down down" "ge-0/0/0"
          = some ("up", "down", "down") :=
  ⟨by decide, by decide, by decide⟩

/-- Claim C1 (amended): the SR-OS status parser uses the first line that
contains the requested interface name as a substring anywhere in the line,
and from that line extracts the administrative state from column 1 and the
port (link) state from column 2 when at least three columns are present;
no protocol state is extracted.  In particular, parsing the terse response
`ge-0/0/0   up    down   down` for interface `ge-0/0/0` yields admin `up`
and port `down`. -/
theorem claim_C1_amended :
    (∀ pre l rest name, (∀ l' ∈ pre, substrIn name l' = false) →
        substrIn name l = true →
        parseLines (pre ++ l :: rest) name = lineStates l)
      ∧ parseShowPort "ge-0/0/0   up    down   down" "ge-0/0/0"
          = (some "up", some "down") :=
  ⟨parseLines_first_match, by decide⟩

/-- Claim C1 witness: the amended theorem applied at a concrete response
whose first line does not mention the interface. -/
theorem claim_C1_witness :
    parseLines ["PORTS SUMMARY", "ge-0/0/0 up down down"] "ge-0/0/0"
      = lineStates "ge-0/0/0 up down down" :=
  claim_C1_amended.1 ["PORTS SUMMARY"] "ge-0/0/0 up down down" [] "ge-0/0/0"
    (by decide) (by decide)

/-- Claim C2 is false as stated: on `foo ge-0/0/0 up` no line matches the
requested interface name under the spec's rule (no line starts with it),
yet the parser does not return all-Unknown — it parses the mid-line
occurrence and reports admin `ge-0/0/0`, port `up`. -/
theorem claim_C2_counterexample :
    specFindStatusLine "foo ge-0/0/0 up" "ge-0/0/0" = none
      ∧ parseShowPort "foo ge-0/0/0 up" "ge-0/0/0" = (some "ge-0/0/0", some "up")
      ∧ parseShowPort "foo ge-0/0/0 up" "ge-0/0/0" ≠ (none, none) :=
  ⟨by decide, by decide, by decide⟩

/-- Claim C2 (amended): if no line of the response contains the requested
interface name as a substring, or the first line containing it has fewer
than three whitespace-delimited columns, the parser leaves both states
`None` (Unknown); the parse is a total function, so no error is raised in
these cases. -/
theorem claim_C2_amended :
    ∀ output name : String,
      ((splitlines output).all (fun l => !(substrIn name l)) = true →
        parseShowPort output name = (none, none))
      ∧ (∀ l, (splitlines output).find? (fun l' => substrIn name l') = some l →
          (pysplit l).length < 3 →
          parseShowPort output name = (none, none)) := by
  intro output name
  constructor
  · intro h
    unfold parseShowPort parseLines
    have hnone : (splitlines output).find? (fun line => substrIn name line) = none := by
      rw [List.find?_eq_none]
      intro x hx
      have hx' := List.all_eq_true.mp h x hx
      simp at hx'
      simp [hx']
    rw [hnone]
  · intro l hfind hlen
    unfold parseShowPort parseLines
    rw [hfind]
    simp only [lineStates]
    rw [if_neg (by omega)]

/-- Claim C2 witness: the amended theorem applied to a response with no
matching line, and to one whose matching line is too short. -/
theorem claim_C2_witness :
    parseShowPort "PORTS SUMMARY\nno match here" "ge-0/0/0" = (none, none)
      ∧ parseShowPort "port ge-0/0/0" "ge-0/0/0" = (none, none) :=
  ⟨(claim_C2_amended "PORTS SUMMARY\nno match here" "ge-0/0/0").1 (by decide),
   (claim_C2_amended "port ge-0/0/0" "ge-0/0/0").2 "port ge-0/0/0"
     (by decide) (by decide)⟩

/-- Claim C3 is false as stated: the SR-OS parser stores state tokens
verbatim, without upper-casing, so the two case-variants of the same
response parse to different values. -/
theorem claim_C3_counterexample :
    parseShowPort "ge-0/0/1 up up up" "ge-0/0/1" = (some "up", some "up")
      ∧ parseShowPort "ge-0/0/1 UP UP UP" "ge-0/0/1" = (some "UP", some "UP")
      ∧ parseShowPort "ge-0/0/1 up up up" "ge-0/0/1"
          ≠ parseShowPort "ge-0/0/1 UP UP UP" "ge-0/0/1" :=
  ⟨by decide, by decide, by decide⟩

/-- Claim C3 (amended): the SR-OS parser stores state tokens verbatim and
is case-sensitive, while the Junos report lower-cases (not upper-cases)
the command output before its substring comparisons, so its summary is
case-insensitive: two outputs with the same lower-casing produce identical
summary lines. -/
theorem claim_C3_amended :
    (∀ s t : String, lowerStr s = lowerStr t →
        junosSummaryLines s = junosSummaryLines t)
      ∧ parseShowPort "ge-0/0/1 up up up" "ge-0/0/1" = (some "up", some "up")
      ∧ parseShowPort "ge-0/0/1 UP UP UP" "ge-0/0/1" = (some "UP", some "UP") := by
  refine ⟨?_, by decide, by decide⟩
  intro s t h
  have hlo : junosLo s = junosLo t := junosLo_congr s t h
  unfold junosSummaryLines junosPhysicalLine junosProtocolLine junosAdminLine
  rw [hlo]

/-- Claim C3 witness: the amended theorem applied to two case-variants of
the same Junos output. -/
theorem claim_C3_witness :
    lowerStr "Physical link is Up" = lowerStr "PHYSICAL LINK IS UP"
      ∧ junosSummaryLines "Physical link is Up"
          = junosSummaryLines "PHYSICAL LINK IS UP" :=
  ⟨by decide,
   claim_C3_amended.1 "Physical link is Up" "PHYSICAL LINK IS UP" (by decide)⟩

/-- Claim C4: the management-address-present check yields `Fail` iff the
device has no primary address and `Pass` iff it has one; the loop emits
exactly one of the two verdicts for every evaluated device, in order. -/
theorem claim_C4_mgmt_ip :
    (∀ d, mgmtIPCheck d = Verdict.Fail ↔ d.primary_ip = none)
      ∧ (∀ d, mgmtIPCheck d = Verdict.Pass ↔ d.primary_ip ≠ none)
      ∧ (∀ d, mgmtIPCheck d = Verdict.Pass ∨ mgmtIPCheck d = Verdict.Fail)
      ∧ (∀ devices, (verifyManagementIP devices).1
          = devices.map (fun d => (d.name, mgmtIPCheck d))) := by
  refine ⟨?_, ?_, ?_, ?_⟩
  · intro d; cases h : d.primary_ip <;> simp [mgmtIPCheck, h]
  · intro d; cases h : d.primary_ip <;> simp [mgmtIPCheck, h]
  · intro d; cases h : d.primary_ip <;> simp [mgmtIPCheck, h]
  · intro devices; rw [verifyManagementIP_eq]

/-- Claim C5: a device that is in a virtual chassis whose master is not the
device itself is skipped by the primary-IP check — no finding at all —
while every other device receives exactly one Pass/Fail finding decided by
whether its primary IP is set. -/
theorem claim_C5_primary_ip_vc :
    (∀ devices, (verifyPrimaryIP devices).1
        = (devices.filter (fun d => !(vcNonMasterMember d))).map
            (fun d => (d.name, primaryIPCheck d)))
      ∧ (∀ d, vcNonMasterMember d = true
          ↔ ∃ vc, d.virtual_chassis = some vc ∧ vc.master_id ≠ some d.id)
      ∧ (∀ d, primaryIPCheck d = Verdict.Pass ↔ d.primary_ip ≠ none) := by
  refine ⟨verifyPrimaryIP_findings, ?_, ?_⟩
  · intro d
    cases h : d.virtual_chassis with
    | none => simp [vcNonMasterMember, h]
    | some vc => simp [vcNonMasterMember, h, bne_iff_ne]
  · intro d; cases h : d.primary_ip <;> simp [primaryIPCheck, h]

/-- Claim C6 is false as stated: a connection timeout is not caught and
recorded into an ok result at the per-device boundary — the run re-raises
it as a job exception, terminating the run with an error. -/
theorem claim_C6_counterexample :
    runGetInterfaceStatus
        ⟨"sros1", some "10.0.0.1/24", some ⟨some "admin", some "secret"⟩⟩
        ConnOutcome.timeout "4/1/c4" = Except.error "Connection timed out."
      ∧ (runGetInterfaceStatus
          ⟨"sros1", some "10.0.0.1/24", some ⟨some "admin", some "secret"⟩⟩
          ConnOutcome.timeout "4/1/c4").isOk = false :=
  ⟨rfl, rfl⟩

/-- Claim C6 (amended): each session/transport/credential error class —
connection timeout, authentication rejection, missing secrets (an absent
secrets group, or a context missing the username or password key), and any
other connection error — is caught and re-raised as a job-level exception
with a fixed sanitized message, which terminates that single-device run
(the job handles exactly one device per invocation); only a successful
connection produces a parsed result.  The credential errors are raised
before any connection outcome is consulted. -/
theorem claim_C6_amended :
    ∀ (name ip u p iface m : String) (conn : ConnOutcome),
      runGetInterfaceStatus ⟨name, some ip, some ⟨some u, some p⟩⟩
          ConnOutcome.timeout iface = Except.error "Connection timed out."
        ∧ runGetInterfaceStatus ⟨name, some ip, some ⟨some u, some p⟩⟩
            ConnOutcome.authFail iface = Except.error "Authentication failed."
        ∧ runGetInterfaceStatus ⟨name, some ip, some ⟨some u, some p⟩⟩
            (ConnOutcome.otherErr m) iface
            = Except.error "Unexpected error during connection or command."
        ∧ runGetInterfaceStatus ⟨name, some ip, none⟩ conn iface
            = Except.error "Device has no Secrets Group assigned."
        ∧ runGetInterfaceStatus ⟨name, some ip, some ⟨none, some p⟩⟩ conn iface
            = Except.error "Secrets missing required keys."
        ∧ runGetInterfaceStatus ⟨name, some ip, some ⟨some u, none⟩⟩ conn iface
            = Except.error "Secrets missing required keys."
        ∧ runGetInterfaceStatus ⟨name, some ip, some ⟨none, none⟩⟩ conn iface
            = Except.error "Secrets missing required keys."
        ∧ ∀ output, runGetInterfaceStatus ⟨name, some ip, some ⟨some u, some p⟩⟩
            (ConnOutcome.ok output) iface
            = Except.ok (parseShowPort output iface) := by
  intro name ip u p iface m conn
  exact ⟨rfl, rfl, rfl, rfl, rfl, rfl, rfl, fun output => rfl⟩

/-- Claim C7: the management-IP job emits exactly one finding per evaluated
device — the detail list has the batch's length and the Pass/Fail totals
sum to it. -/
theorem claim_C7_batch_count :
    ∀ devices, (verifyManagementIP devices).1.length = devices.length
      ∧ passCount (verifyManagementIP devices).1
          + failCount (verifyManagementIP devices).1 = devices.length := by
  intro devices
  have h := verifyManagementIP_eq devices
  constructor
  · rw [h]
    simp
  · rw [passCount_add_failCount, h]
    simp

/-- Claim C8: the SR-OS parser examines only the first line containing the
interface name as a substring — when that line has fewer than three
columns the scan still stops there, and any later well-formed line never
influences the result, which stays all-Unknown. -/
theorem claim_C8_first_match_stops :
    ∀ pre l rest name, (∀ l' ∈ pre, substrIn name l' = false) →
      substrIn name l = true → (pysplit l).length < 3 →
      parseLines (pre ++ l :: rest) name = (none, none) := by
  intro pre l rest name hpre hl hlen
  rw [parseLines_first_match pre l rest name hpre hl]
  simp only [lineStates]
  rw [if_neg (by omega)]

/-- Claim C8 witness: a short matching line followed by a well-formed line
for the same interface still parses to all-Unknown. -/
theorem claim_C8_witness :
    parseLines ["PORTS SUMMARY", "port ge-0/0/0", "ge-0/0/0 up down down"]
      "ge-0/0/0" = (none, none) :=
  claim_C8_first_match_stops ["PORTS SUMMARY"] "port ge-0/0/0"
    ["ge-0/0/0 up down down"] "ge-0/0/0" (by decide) (by decide) (by decide)

/-- Claim C9: the Junos report marks the administrative status UP (enabled)
whenever neither `admin down` nor `administratively down` occurs in the
lower-cased main output — including for empty output, where the physical
link and protocol summaries fall back to Unknown — and the administrative
status line is never an Unknown line. -/
theorem claim_C9_admin_up_default :
    (∀ s, substrIn "admin down" (junosLo s) = false →
        substrIn "administratively down" (junosLo s) = false →
        junosAdminLine s = "✓ Administrative Status     UP (enabled)")
      ∧ (∀ s, junosAdminLine s = "✓ Administrative Status     UP (enabled)"
          ∨ junosAdminLine s = "! Administrative Status     DOWN (disabled)")
      ∧ junosAdminLine "" = "✓ Administrative Status     UP (enabled)"
      ∧ junosPhysicalLine "" = "? " ++ leftAlign25 "Physical Link" ++ " Unknown"
      ∧ junosProtocolLine "" = "? " ++ leftAlign25 "Protocol Status" ++ " Unknown" := by
  refine ⟨?_, ?_, by decide, by decide, by decide⟩
  · intro s h1 h2
    unfold junosAdminLine
    rw [h1, h2]
    rfl
  · intro s
    unfold junosAdminLine
    split
    · exact Or.inr rfl
    · exact Or.inl rfl

/-- Claim C9 witness: an output mentioning no admin-down phrasing is
reported administratively UP. -/
theorem claim_C9_witness :
    substrIn "admin down" (junosLo "Interface: ge-0/0/1, Enabled") = false
      ∧ substrIn "administratively down" (junosLo "Interface: ge-0/0/1, Enabled")
          = false
      ∧ junosAdminLine "Interface: ge-0/0/1, Enabled"
          = "✓ Administrative Status     UP (enabled)" :=
  ⟨by decide, by decide,
   claim_C9_admin_up_default.1 "Interface: ge-0/0/1, Enabled"
     (by decide) (by decide)⟩

/-- Claim C10: when the selected interface does not belong to the selected
device, the run returns the error string at once with an empty remote
trace — it never connects and never sends a configuration command. -/
theorem claim_C10_wrong_device :
    ∀ (device : ShutdownDevice) (iface : InterfaceRec)
      (conn : ConnResult) (cfg : CfgResult),
      iface.device_id ≠ device.id →
      runJunosDisableInterface device iface conn cfg
          = ("Error: Interface " ++ iface.name ++ " does not belong to device "
              ++ device.name, [])
        ∧ NetEffect.connect ∉ (runJunosDisableInterface device iface conn cfg).2
        ∧ ∀ cmds, NetEffect.sendConfig cmds
            ∉ (runJunosDisableInterface device iface conn cfg).2 := by
  intro device iface conn cfg h
  have hrun : runJunosDisableInterface device iface conn cfg
      = ("Error: Interface " ++ iface.name ++ " does not belong to device "
          ++ device.name, []) := by
    unfold runJunosDisableInterface
    rw [if_pos h]
  refine ⟨hrun, ?_, ?_⟩
  · rw [hrun]
    simp
  · intro cmds
    rw [hrun]
    simp

/-- Claim C10 witness: a mismatched device/interface pair returns the error
with no remote effect, even with a healthy connection available. -/
theorem claim_C10_witness :
    runJunosDisableInterface ⟨1, "r1", "10.0.0.1"⟩ ⟨2, "ge-0/0/1"⟩
        ConnResult.ok (CfgResult.ok "commit complete")
      = ("Error: Interface ge-0/0/1 does not belong to device r1", []) :=
  (claim_C10_wrong_device ⟨1, "r1", "10.0.0.1"⟩ ⟨2, "ge-0/0/1"⟩
    ConnResult.ok (CfgResult.ok "commit complete") (by decide)).1

end NautobotJobs
